import Mathlib

/-!
Verification of the capture-writer subsystem of `crates/lib/src/capture.rs`
(synthetic pcapng generator for a game-server query client).

The embedding models the session-level behaviour of `PcapWriter`:

* machine integers `u32`/`u16` are `Nat` with explicit `% 2^32` / `% 2^16`
  where the Rust code wraps or truncates (`wrapping_add`, `as u16`);
* each emitted pcapng `EnhancedPacketBlock` is modelled as an `EmittedRecord`
  carrying the direction and transport segment it was built from plus its
  comment option, so functions return their record trace explicitly;
* the IPv4/IPv6 network-layer encoding (`encode_ip_packet`) is modelled at
  header-field level, with the 24-byte IPv4 header additionally serialised
  to its big-endian 16-bit word view so the pnet internet checksum
  (`pnet_packet::util::checksum`, i.e. one's-complement fold with a skipped
  checksum word) can be computed exactly as the library does;
* the `unreachable!()` branch of `encode_ip_packet` (mixed address
  families) is modelled as `none`.
-/

/-- The direction of a packet (`PacketDirection` in capture.rs). -/
inductive PacketDirection where
  | Send
  | Receive
deriving DecidableEq, Repr

/-- The opposite packet direction. -/
def PacketDirection.opposite : PacketDirection → PacketDirection
  | PacketDirection.Send => PacketDirection.Receive
  | PacketDirection.Receive => PacketDirection.Send

/-- The transport protocol of a packet (`PacketProtocol` in capture.rs). -/
inductive PacketProtocol where
  | TCP
  | UDP
deriving DecidableEq, Repr

/-- Model of `std::net::IpAddr`: a v4 or v6 address, the raw address bits as
a `Nat` (below `2^32` for v4). -/
inductive IpAddr where
  | v4 (addr : Nat)
  | v6 (addr : Nat)
deriving DecidableEq, Repr

/-- Model of `std::net::SocketAddr`: address plus port. -/
structure SocketAddr where
  ip : IpAddr
  port : Nat
deriving DecidableEq, Repr

/-- Info about a packet we have sent or received (`PacketInfo` in capture.rs). -/
structure PacketInfo where
  direction : PacketDirection
  protocol : PacketProtocol
  remote_address : SocketAddr
  local_address : SocketAddr
deriving DecidableEq, Repr

/-- `u32` wrapping arithmetic: reduce modulo `2^32` (4294967296). -/
def wrap32 (n : Nat) : Nat := n % 4294967296

namespace TcpFlags

/-- pnet `TcpFlags::FIN`. -/
def FIN : Nat := 1

/-- pnet `TcpFlags::SYN`. -/
def SYN : Nat := 2

/-- pnet `TcpFlags::RST`. -/
def RST : Nat := 4

/-- pnet `TcpFlags::PSH`. -/
def PSH : Nat := 8

/-- pnet `TcpFlags::ACK`. -/
def ACK : Nat := 16

end TcpFlags

/-- IP next-header protocol number for TCP (`IpNextHeaderProtocols::Tcp`). -/
def ipProtoTcp : Nat := 6

/-- IP next-header protocol number for UDP (`IpNextHeaderProtocols::Udp`). -/
def ipProtoUdp : Nat := 17

/-- The fields of the TCP segment the code writes into its scratch buffer
via `MutableTcpPacket` setters (`set_source`, `set_destination`,
`set_sequence`, `set_acknowledgement`, `set_flags`, `set_window`,
`set_data_offset`, `set_payload`).  Fields never set stay 0 (the buffer is
zero-initialised). -/
structure TcpSeg where
  source : Nat
  destination : Nat
  sequence : Nat
  acknowledgement : Nat
  flags : Nat
  window : Nat
  data_offset : Nat
  payload : List Nat
deriving DecidableEq, Repr

/-- The fields of the UDP segment written via `MutableUdpPacket` setters.
`length` is the UDP length field the code sets:
`(payload.len() + HEADER_SIZE_UDP) as u16` with `HEADER_SIZE_UDP = 4`. -/
structure UdpSeg where
  source : Nat
  destination : Nat
  length : Nat
  payload : List Nat
deriving DecidableEq, Repr

/-- A transport segment: what the transport scratch buffer holds when it is
passed to `write_transport_payload`. -/
inductive Segment where
  | tcp (s : TcpSeg)
  | udp (s : UdpSeg)
deriving DecidableEq, Repr

/-- Model of one emitted pcapng `EnhancedPacketBlock`: the `PacketInfo`
direction in force at `write_transport_payload` time (it selects IP
source/destination), the IP next-header protocol, the transport segment the
block's bytes were encoded from, and the block's `Comment` option
(`none` models the empty options vector). -/
structure EmittedRecord where
  direction : PacketDirection
  ip_protocol : Nat
  seg : Segment
  comment : Option String
deriving DecidableEq, Repr

/-- The mutable session state of `PcapWriter` (capture.rs lines 64-71);
the underlying pcapng stream writer and `start_time` are I/O and are
modelled by the record traces the operations return instead. -/
structure PcapWriter where
  send_seq : Nat
  rec_seq : Nat
  has_sent_handshake : Bool
  stream_count : Nat
deriving DecidableEq, Repr

namespace PcapWriter

/-- `PcapWriter::new`: all counters 0, handshake flag false. -/
def new : PcapWriter :=
  { send_seq := 0
    rec_seq := 0
    has_sent_handshake := false
    stream_count := 0 }

/-- `PcapWriter::write_transport_packet` (capture.rs lines 108-203):
encode the transport-layer packet with a payload and write it.  Returns
the updated state together with the list of records appended to the
capture, in order. -/
def write_transport_packet (self : PcapWriter) (info : PacketInfo)
    (payload : List Nat) : PcapWriter × List EmittedRecord :=
  let ports : Nat × Nat :=
    match info.direction with
    | PacketDirection.Send => (info.local_address.port, info.remote_address.port)
    | PacketDirection.Receive => (info.remote_address.port, info.local_address.port)
  let source_port := ports.1
  let dest_port := ports.2
  match info.protocol with
  | PacketProtocol.TCP =>
    -- data segment: PSH|ACK, sequence/acknowledgement from the counters,
    -- then the sender's counter advances by the payload length (wrapping)
    let dataFields : Nat × Nat × PcapWriter :=
      match info.direction with
      | PacketDirection.Send =>
        (self.send_seq, self.rec_seq,
         { self with send_seq := wrap32 (self.send_seq + payload.length) })
      | PacketDirection.Receive =>
        (self.rec_seq, self.send_seq,
         { self with rec_seq := wrap32 (self.rec_seq + payload.length) })
    let self1 := dataFields.2.2
    let dataRecord : EmittedRecord :=
      { direction := info.direction
        ip_protocol := ipProtoTcp
        seg := Segment.tcp
          { source := source_port
            destination := dest_port
            sequence := dataFields.1
            acknowledgement := dataFields.2.1
            flags := TcpFlags.PSH + TcpFlags.ACK
            window := 43440
            data_offset := 5
            payload := payload }
        comment := none }
    -- synthesized ack: ports swapped, ACK only, empty payload, direction of
    -- the cloned info flipped, counters read after the data advance
    let ackFields : Nat × Nat × PacketDirection :=
      match info.direction with
      | PacketDirection.Send =>
        (self1.rec_seq, self1.send_seq, PacketDirection.Receive)
      | PacketDirection.Receive =>
        (self1.send_seq, self1.rec_seq, PacketDirection.Send)
    let ackRecord : EmittedRecord :=
      { direction := ackFields.2.2
        ip_protocol := ipProtoTcp
        seg := Segment.tcp
          { source := dest_port
            destination := source_port
            sequence := ackFields.1
            acknowledgement := ackFields.2.1
            flags := TcpFlags.ACK
            window := 43440
            data_offset := 5
            payload := [] }
        comment := some "Generated TCP ack" }
    (self1, [dataRecord, ackRecord])
  | PacketProtocol.UDP =>
    let udpRecord : EmittedRecord :=
      { direction := info.direction
        ip_protocol := ipProtoUdp
        seg := Segment.udp
          { source := source_port
            destination := dest_port
            length := (payload.length + 4) % 65536
            payload := payload }
        comment := none }
    (self, [udpRecord])

/-- `PcapWriter::write_tcp_handshake` (capture.rs lines 285-362): emit a
synthesized SYN / SYN+ACK / ACK exchange, each record with the comment
"Generated TCP handshake", then set `has_sent_handshake`. -/
def write_tcp_handshake (self : PcapWriter) (info : PacketInfo) :
    PcapWriter × List EmittedRecord :=
  let source_port := info.local_address.port
  let dest_port := info.remote_address.port
  -- SYN: send_seq := 500; the acknowledgement field is the zeroed buffer's 0
  let self1 := { self with send_seq := 500 }
  let synRecord : EmittedRecord :=
    { direction := PacketDirection.Send
      ip_protocol := ipProtoTcp
      seg := Segment.tcp
        { source := source_port
          destination := dest_port
          sequence := self1.send_seq
          acknowledgement := 0
          flags := TcpFlags.SYN
          window := 43440
          data_offset := 5
          payload := [] }
      comment := some "Generated TCP handshake" }
  -- SYN + ACK: send_seq := send_seq.wrapping_add(1); rec_seq := 1000
  let self2 := { self1 with
    send_seq := wrap32 (self1.send_seq + 1)
    rec_seq := 1000 }
  let synAckRecord : EmittedRecord :=
    { direction := PacketDirection.Receive
      ip_protocol := ipProtoTcp
      seg := Segment.tcp
        { source := dest_port
          destination := source_port
          sequence := self2.rec_seq
          acknowledgement := self2.send_seq
          flags := TcpFlags.SYN + TcpFlags.ACK
          window := 43440
          data_offset := 5
          payload := [] }
      comment := some "Generated TCP handshake" }
  -- ACK: rec_seq := rec_seq.wrapping_add(1)
  let self3 := { self2 with rec_seq := wrap32 (self2.rec_seq + 1) }
  let ackRecord : EmittedRecord :=
    { direction := PacketDirection.Send
      ip_protocol := ipProtoTcp
      seg := Segment.tcp
        { source := source_port
          destination := dest_port
          sequence := self3.send_seq
          acknowledgement := self3.rec_seq
          flags := TcpFlags.ACK
          window := 43440
          data_offset := 5
          payload := [] }
      comment := some "Generated TCP handshake" }
  let self4 := { self3 with has_sent_handshake := true }
  (self4, [synRecord, synAckRecord, ackRecord])

/-- `<PcapWriter as CaptureWriter>::write` (capture.rs lines 86-90): just
`write_transport_packet`; the `GDResult` is always `Ok(())`, so the model
returns the state and trace directly. -/
def write (self : PcapWriter) (info : PacketInfo) (data : List Nat) :
    PcapWriter × List EmittedRecord :=
  self.write_transport_packet info data

/-- `<PcapWriter as CaptureWriter>::new_connect` (capture.rs lines 92-103):
for TCP, write the handshake (unconditionally — `has_sent_handshake` is
never consulted); for UDP, nothing; then `stream_count` advances by 1
(wrapping). -/
def new_connect (self : PcapWriter) (info : PacketInfo) :
    PcapWriter × List EmittedRecord :=
  let step : PcapWriter × List EmittedRecord :=
    match info.protocol with
    | PacketProtocol.TCP => self.write_tcp_handshake info
    | PacketProtocol.UDP => (self, [])
  let self1 := step.1
  ({ self1 with stream_count := wrap32 (self1.stream_count + 1) }, step.2)

end PcapWriter

/-! ## The network layer: IPv4/IPv6 headers and the internet checksum -/

/-- One step of pnet's `finalize_checksum` carry-fold loop:
`sum = (sum >> 16) + (sum & 0xFFFF)`. -/
def foldCarryStep (s : Nat) : Nat := s / 65536 + s % 65536

/-- Fuel-indexed carry fold: apply `foldCarryStep` while the value has bits
above the low 16, at most `fuel` times.  For `fuel ≥ s` this is exactly
pnet's `while sum >> 16 != 0` loop (each step strictly decreases). -/
def foldCarrySteps : Nat → Nat → Nat
  | 0, s => s
  | fuel + 1, s => if s < 65536 then s else foldCarrySteps fuel (foldCarryStep s)

/-- pnet's carry fold run to completion (fuel `s` always suffices). -/
def foldCarry (s : Nat) : Nat := foldCarrySteps s s

/-- pnet `finalize_checksum`: carry-fold the 32-bit accumulator, then
complement the low 16 bits (`!sum as u16`). -/
def finalize_checksum (s : Nat) : Nat := 65535 - foldCarry s

/-- Sum a list of big-endian 16-bit words (pnet `sum_be_words` with no
skipped word). -/
def sumWords : List Nat → Nat
  | [] => 0
  | w :: ws => w + sumWords ws

/-- pnet `sum_be_words data skipword`: sum the 16-bit words, skipping the
word at index `skip` (for IPv4 this is word 5, the checksum field). -/
def sumWordsSkip : List Nat → Nat → Nat
  | [], _ => 0
  | _ :: ws, 0 => sumWords ws
  | w :: ws, k + 1 => w + sumWordsSkip ws k

/-- Validate a header with the standard internet checksum: one's-complement
sum of all its words, complemented; a checksummed header validates to 0. -/
def validateChecksum (ws : List Nat) : Nat := finalize_checksum (sumWords ws)

/-- The IPv4 header fields `encode_ip_packet` sets through
`MutableIpv4Packet` / `MutableIpv4OptionPacket`; `identification` and
`fragment_offset` are never set and stay 0 (zeroed buffer).  The single
option is `copied`/`class`/`number` bits, a length byte and two data
bytes. -/
structure Ip4Header where
  version : Nat
  header_length : Nat
  total_length : Nat
  identification : Nat
  flags : Nat
  fragment_offset : Nat
  ttl : Nat
  next_level_protocol : Nat
  checksum : Nat
  source : Nat
  destination : Nat
  opt_copied : Nat
  opt_class : Nat
  opt_number : Nat
  opt_length : Nat
  opt_data : Nat
deriving DecidableEq, Repr

/-- The 24-byte IPv4 header (20 bytes + one 4-byte option) as its twelve
big-endian 16-bit words, exactly the byte view pnet's checksum sums:
word 0 is `(version<<4 | ihl) << 8 | dscp/ecn(0)`, word 3 is
`flags << 13 | fragment offset`, word 4 is `ttl << 8 | protocol`, word 5
the checksum, words 6-9 the addresses, word 10 the option type/length
bytes, word 11 the option data. -/
def Ip4Header.words (h : Ip4Header) : List Nat :=
  [ (h.version % 16) * 4096 + (h.header_length % 16) * 256,
    h.total_length % 65536,
    h.identification % 65536,
    (h.flags % 8) * 8192 + h.fragment_offset % 8192,
    (h.ttl % 256) * 256 + h.next_level_protocol % 256,
    h.checksum % 65536,
    h.source / 65536 % 65536,
    h.source % 65536,
    h.destination / 65536 % 65536,
    h.destination % 65536,
    ((h.opt_copied % 2) * 128 + (h.opt_class % 4) * 32 + h.opt_number % 32) * 256
      + h.opt_length % 256,
    h.opt_data % 65536 ]

/-- pnet `ipv4::checksum`: internet checksum over the header's
`header_length * 4` bytes, skipping word 5 (the checksum field). -/
def ipv4_checksum (h : Ip4Header) : Nat :=
  finalize_checksum (sumWordsSkip h.words 5)

/-- `ip.set_checksum(pnet_packet::ipv4::checksum(&ip.to_immutable()))`:
store the internet checksum computed over the completed header into its
checksum field. -/
def Ip4Header.withChecksum (base : Ip4Header) : Ip4Header :=
  { base with checksum := ipv4_checksum base }

/-- The IPv6 header fields `encode_ip_packet` sets through
`MutableIpv6Packet`; `set_flow_label` takes a `u32` but the field holds its
low 20 bits. -/
structure Ip6Header where
  version : Nat
  payload_length : Nat
  next_header : Nat
  hop_limit : Nat
  flow_label : Nat
  source : Nat
  destination : Nat
deriving DecidableEq, Repr

/-- The network-layer packet `encode_ip_packet` produces. -/
inductive IpPacket where
  | v4 (h : Ip4Header)
  | v6 (h : Ip6Header)
deriving DecidableEq, Repr

namespace PcapWriter

/-- `PcapWriter::encode_ip_packet` (capture.rs lines 206-268), modelled at
header-field level; only the state's `stream_count` and the payload length
feed the header.  The mixed-address-family `unreachable!()` branch is
`none`. -/
def encode_ip_packet (self : PcapWriter) (info : PacketInfo)
    (protocol : Nat) (payloadLen : Nat) : Option IpPacket :=
  match info.local_address.ip, info.remote_address.ip with
  | IpAddr.v4 local_address, IpAddr.v4 remote_address =>
    let sd : Nat × Nat :=
      if info.direction = PacketDirection.Send then
        (local_address, remote_address)
      else
        (remote_address, local_address)
    let header_size := 20 + 32 / 8
    let base : Ip4Header :=
      { version := 4
        total_length := (payloadLen + header_size) % 65536
        next_level_protocol := protocol
        header_length := header_size / 4
        source := sd.1
        destination := sd.2
        ttl := 64
        flags := 2  -- pnet `Ipv4Flags::DontFragment` = 0b010
        identification := 0
        fragment_offset := 0
        checksum := 0
        opt_copied := 1
        opt_class := 0
        opt_number := 8  -- pnet `Ipv4OptionNumbers::SID`
        opt_length := 4
        opt_data := self.stream_count % 65536 }
    some (IpPacket.v4 base.withChecksum)
  | IpAddr.v6 local_address, IpAddr.v6 remote_address =>
    let sd : Nat × Nat :=
      match info.direction with
      | PacketDirection.Send => (local_address, remote_address)
      | PacketDirection.Receive => (remote_address, local_address)
    some (IpPacket.v6
      { version := 6
        payload_length := payloadLen % 65536
        next_header := protocol
        source := sd.1
        destination := sd.2
        hop_limit := 64
        flow_label := self.stream_count % 1048576 })
  | _, _ => none

end PcapWriter

/-- Whether two addresses share an IP family (the `encode_ip_packet` match
reaches a real branch exactly in this case). -/
def sameFamily : IpAddr → IpAddr → Bool
  | IpAddr.v4 _, IpAddr.v4 _ => true
  | IpAddr.v6 _, IpAddr.v6 _ => true
  | _, _ => false

/-- Fold a list of payloads through successive `write` calls, keeping the
final session state. -/
def writeSeq (self : PcapWriter) (info : PacketInfo)
    (payloads : List (List Nat)) : PcapWriter :=
  payloads.foldl (fun st p => (st.write info p).1) self

/-- Example local endpoint `10.0.0.5:51000`. -/
def exV4Local : SocketAddr := { ip := IpAddr.v4 167772165, port := 51000 }

/-- Example remote endpoint `10.0.0.1:27015`. -/
def exV4Remote : SocketAddr := { ip := IpAddr.v4 167772161, port := 27015 }

/-- Example TCP send event over the IPv4 endpoints. -/
def exTcpInfo : PacketInfo :=
  { direction := PacketDirection.Send
    protocol := PacketProtocol.TCP
    remote_address := exV4Remote
    local_address := exV4Local }

/-- Example UDP send event over the IPv4 endpoints. -/
def exUdpInfo : PacketInfo :=
  { direction := PacketDirection.Send
    protocol := PacketProtocol.UDP
    remote_address := exV4Remote
    local_address := exV4Local }

/-! ## Arithmetic facts about the carry fold -/

theorem foldCarrySteps_mod (fuel : Nat) :
    ∀ s, foldCarrySteps fuel s % 65535 = s % 65535 := by
  induction fuel with
  | zero => intro s; rfl
  | succ n ih =>
    intro s
    rw [foldCarrySteps]
    split
    · rfl
    · rw [ih, foldCarryStep]
      omega

theorem foldCarrySteps_le (fuel : Nat) : ∀ s, foldCarrySteps fuel s ≤ s := by
  induction fuel with
  | zero => intro s; exact Nat.le_refl s
  | succ n ih =>
    intro s
    rw [foldCarrySteps]
    split
    · exact Nat.le_refl s
    · exact Nat.le_trans (ih _) (by rw [foldCarryStep]; omega)

theorem foldCarrySteps_pos (fuel : Nat) :
    ∀ s, 0 < s → 0 < foldCarrySteps fuel s := by
  induction fuel with
  | zero => intro s hs; exact hs
  | succ n ih =>
    intro s hs
    rw [foldCarrySteps]
    split
    · exact hs
    · exact ih _ (by rw [foldCarryStep]; omega)

theorem foldCarrySteps_lt (fuel : Nat) :
    ∀ s, s ≤ fuel + 65535 → foldCarrySteps fuel s < 65536 := by
  induction fuel with
  | zero => intro s hs; rw [foldCarrySteps]; omega
  | succ n ih =>
    intro s hs
    rw [foldCarrySteps]
    split
    · assumption
    · refine ih _ ?bound
      rw [foldCarryStep]
      omega

theorem foldCarry_mod (s : Nat) : foldCarry s % 65535 = s % 65535 :=
  foldCarrySteps_mod s s

theorem foldCarry_le (s : Nat) : foldCarry s ≤ s := foldCarrySteps_le s s

theorem foldCarry_pos (s : Nat) (hs : 0 < s) : 0 < foldCarry s :=
  foldCarrySteps_pos s s hs

theorem foldCarry_lt (s : Nat) : foldCarry s < 65536 :=
  foldCarrySteps_lt s s (by omega)

/-- The defining property of the internet checksum: append the complement
of the folded sum to the sum and the whole thing validates to zero. -/
theorem finalize_validate_zero (s : Nat) :
    finalize_checksum (s + finalize_checksum s) = 0 := by
  rw [finalize_checksum, finalize_checksum]
  have h1 := foldCarry_mod s
  have h2 := foldCarry_le s
  have h3 := foldCarry_lt s
  have h6 : 0 < s + (65535 - foldCarry s) := by omega
  have h4 := foldCarry_mod (s + (65535 - foldCarry s))
  have h5 := foldCarry_lt (s + (65535 - foldCarry s))
  have h7 := foldCarry_pos _ h6
  omega

/-- Summing all twelve words of an IPv4 header splits into the
checksum-skipping sum plus the checksum word. -/
theorem sumWords_eq_skip_add_checksum (h : Ip4Header) :
    sumWords h.words = sumWordsSkip h.words 5 + h.checksum % 65536 := by
  simp only [Ip4Header.words, sumWords, sumWordsSkip]
  ring

/-- A header whose checksum field was filled in by `withChecksum`
validates to zero under the standard internet checksum. -/
theorem validate_withChecksum (base : Ip4Header) :
    validateChecksum base.withChecksum.words = 0 := by
  rw [validateChecksum, sumWords_eq_skip_add_checksum]
  have h2 : sumWordsSkip base.withChecksum.words 5 = sumWordsSkip base.words 5 := by
    simp only [Ip4Header.withChecksum, Ip4Header.words, sumWordsSkip, sumWords]
  have h1 : base.withChecksum.checksum
      = finalize_checksum (sumWordsSkip base.words 5) := rfl
  rw [h1, h2]
  have h3 : finalize_checksum (sumWordsSkip base.words 5) < 65536 := by
    rw [finalize_checksum]; omega
  rw [Nat.mod_eq_of_lt h3]
  exact finalize_validate_zero _

/-! ## The claims -/

/-- Claim C1, counterexample: on a fresh `PcapWriter` (where
`has_sent_handshake` is false), a TCP `write` call does NOT emit the
three-way handshake: it emits 2 records, not 5, and leaves
`has_sent_handshake` false. -/
theorem C1_counterexample :
    PcapWriter.new.has_sent_handshake = false ∧
    (PcapWriter.write PcapWriter.new exTcpInfo [0, 1]).2.length = 2 ∧
    ¬ (PcapWriter.write PcapWriter.new exTcpInfo [0, 1]).2.length = 5 ∧
    (PcapWriter.write PcapWriter.new exTcpInfo [0, 1]).1.has_sent_handshake
      = false := by
  refine ⟨rfl, rfl, ?_, rfl⟩
  intro h
  simp [PcapWriter.write, PcapWriter.write_transport_packet, exTcpInfo] at h

/-- Claim C1 (amended): a TCP `write` call — first or not — emits exactly
2 capture records (the data record and its synthesized ack), never a
handshake record, and leaves `has_sent_handshake` unchanged; handshake
synthesis happens only in `new_connect`. -/
theorem C1_first_write_two_records (self : PcapWriter) (info : PacketInfo)
    (payload : List Nat) (hp : info.protocol = PacketProtocol.TCP) :
    (self.write info payload).2.length = 2 ∧
    (self.write info payload).1.has_sent_handshake = self.has_sent_handshake ∧
    ∀ r ∈ (self.write info payload).2,
      r.comment ≠ some "Generated TCP handshake" := by
  obtain ⟨dir, proto, ra, la⟩ := info
  subst hp
  cases dir <;>
    refine ⟨rfl, rfl, ?_⟩ <;>
    · intro r hr
      simp only [PcapWriter.write, PcapWriter.write_transport_packet,
        List.mem_cons, List.not_mem_nil, or_false] at hr
      rcases hr with h | h <;> subst h <;> simp

/-- Claim C1 witness: the amended statement at a fresh writer and a
concrete TCP send event. -/
theorem C1_witness :
    (PcapWriter.write PcapWriter.new exTcpInfo [0]).2.length = 2 ∧
    (PcapWriter.write PcapWriter.new exTcpInfo [0]).1.has_sent_handshake
      = PcapWriter.new.has_sent_handshake :=
  ⟨(C1_first_write_two_records PcapWriter.new exTcpInfo [0] rfl).1,
   (C1_first_write_two_records PcapWriter.new exTcpInfo [0] rfl).2.1⟩

/-- Claim C2, evaluation at the failing input: `new_connect`, a 2-byte
`write`, then a second `new_connect` on the same TCP session.  Although
`has_sent_handshake` is already true, the second `new_connect` emits 3
more handshake records and resets `send_seq` from 503 back to 501 — the
flag is set but never consulted, so `new_connect` is not idempotent. -/
theorem C2_not_idempotent_eval :
    ((PcapWriter.write (PcapWriter.new_connect PcapWriter.new exTcpInfo).1
        exTcpInfo [0, 1]).1.has_sent_handshake = true) ∧
    ((PcapWriter.write (PcapWriter.new_connect PcapWriter.new exTcpInfo).1
        exTcpInfo [0, 1]).1.send_seq = 503) ∧
    ((PcapWriter.new_connect
        (PcapWriter.write (PcapWriter.new_connect PcapWriter.new exTcpInfo).1
          exTcpInfo [0, 1]).1 exTcpInfo).2.length = 3) ∧
    ((PcapWriter.new_connect
        (PcapWriter.write (PcapWriter.new_connect PcapWriter.new exTcpInfo).1
          exTcpInfo [0, 1]).1 exTcpInfo).1.send_seq = 501) :=
  ⟨rfl, rfl, rfl, rfl⟩

/-- Claim C3: every emitted TCP data record is immediately followed by
exactly one synthesized ack record in the opposite direction, with only
the ACK flag, an empty payload, the comment "Generated TCP ack",
`sequence` equal to the data record's `acknowledgement`, and
`acknowledgement` equal to the data record's `sequence` plus its payload
length mod `2^32`. -/
theorem C3_data_followed_by_ack (self : PcapWriter) (info : PacketInfo)
    (payload : List Nat) (hp : info.protocol = PacketProtocol.TCP) :
    ∃ dseg aseg : TcpSeg,
      (self.write info payload).2 =
        [ { direction := info.direction, ip_protocol := ipProtoTcp,
            seg := Segment.tcp dseg, comment := none },
          { direction := info.direction.opposite, ip_protocol := ipProtoTcp,
            seg := Segment.tcp aseg,
            comment := some "Generated TCP ack" } ] ∧
      aseg.flags = TcpFlags.ACK ∧
      aseg.payload = [] ∧
      aseg.sequence = dseg.acknowledgement ∧
      aseg.acknowledgement = wrap32 (dseg.sequence + payload.length) := by
  obtain ⟨dir, proto, ra, la⟩ := info
  subst hp
  cases dir <;> exact ⟨_, _, rfl, rfl, rfl, rfl, rfl⟩

/-- Claim C3 witness: the property applied at a fresh writer and a
concrete TCP send event with a 3-byte payload. -/
theorem C3_witness :
    (PcapWriter.write PcapWriter.new exTcpInfo [7, 8, 9]).2.length = 2 := by
  obtain ⟨dseg, aseg, heq, -, -, -, -⟩ :=
    C3_data_followed_by_ack PcapWriter.new exTcpInfo [7, 8, 9] rfl
  rw [heq]
  rfl

/-- Claim C4: `write_tcp_handshake` emits exactly the SYN (Send, seq 500,
local→remote), SYN+ACK (Receive, seq 1000, ack 501, remote→local) and ACK
(Send, seq 501, ack 1001, local→remote) records, each commented
"Generated TCP handshake", and afterwards `send_seq = 501` and
`rec_seq = 1001`. -/
theorem C4_handshake_shape (self : PcapWriter) (info : PacketInfo) :
    (self.write_tcp_handshake info).2 =
      [ { direction := PacketDirection.Send, ip_protocol := ipProtoTcp,
          seg := Segment.tcp
            { source := info.local_address.port
              destination := info.remote_address.port
              sequence := 500, acknowledgement := 0
              flags := TcpFlags.SYN, window := 43440, data_offset := 5
              payload := [] }
          comment := some "Generated TCP handshake" },
        { direction := PacketDirection.Receive, ip_protocol := ipProtoTcp,
          seg := Segment.tcp
            { source := info.remote_address.port
              destination := info.local_address.port
              sequence := 1000, acknowledgement := 501
              flags := TcpFlags.SYN + TcpFlags.ACK, window := 43440
              data_offset := 5, payload := [] }
          comment := some "Generated TCP handshake" },
        { direction := PacketDirection.Send, ip_protocol := ipProtoTcp,
          seg := Segment.tcp
            { source := info.local_address.port
              destination := info.remote_address.port
              sequence := 501, acknowledgement := 1001
              flags := TcpFlags.ACK, window := 43440, data_offset := 5
              payload := [] }
          comment := some "Generated TCP handshake" } ] ∧
    (self.write_tcp_handshake info).1.send_seq = 501 ∧
    (self.write_tcp_handshake info).1.rec_seq = 1001 :=
  ⟨rfl, rfl, rfl⟩

/-- Send-direction TCP writes accumulate payload lengths into `send_seq`
(mod `2^32`) and leave `rec_seq` alone, from any in-range start state. -/
theorem writeSeq_send_general (info : PacketInfo)
    (hp : info.protocol = PacketProtocol.TCP)
    (hd : info.direction = PacketDirection.Send) :
    ∀ (payloads : List (List Nat)) (self : PcapWriter),
      self.send_seq < 4294967296 →
      (writeSeq self info payloads).send_seq
          = (self.send_seq + (payloads.map List.length).sum) % 4294967296 ∧
      (writeSeq self info payloads).rec_seq = self.rec_seq := by
  obtain ⟨dir, proto, ra, la⟩ := info
  subst hp
  subst hd
  intro payloads
  induction payloads with
  | nil =>
    intro self h
    refine ⟨?_, rfl⟩
    show self.send_seq = (self.send_seq + (List.map List.length []).sum) % 4294967296
    simp
    omega
  | cons p ps ih =>
    intro self h
    have h2 : wrap32 (self.send_seq + p.length) < 4294967296 :=
      Nat.mod_lt _ (by norm_num)
    obtain ⟨ha, hb⟩ :=
      ih { self with send_seq := wrap32 (self.send_seq + p.length) } h2
    constructor
    · show (writeSeq { self with send_seq := wrap32 (self.send_seq + p.length) }
          ⟨PacketDirection.Send, PacketProtocol.TCP, ra, la⟩ ps).send_seq
        = (self.send_seq + ((p :: ps).map List.length).sum) % 4294967296
      rw [ha]
      simp only [List.map_cons, List.sum_cons, wrap32]
      omega
    · show (writeSeq { self with send_seq := wrap32 (self.send_seq + p.length) }
          ⟨PacketDirection.Send, PacketProtocol.TCP, ra, la⟩ ps).rec_seq
        = self.rec_seq
      rw [hb]

/-- Claim C5: from the post-handshake state (`send_seq = 501`,
`rec_seq = 1001`), after N Send-direction TCP writes with payload lengths
p_1..p_N the state has `send_seq = (501 + sum p_i) mod 2^32` and
`rec_seq` still 1001; writes never fail. -/
theorem C5_send_seq_accumulates (self : PcapWriter) (info : PacketInfo)
    (payloads : List (List Nat))
    (hp : info.protocol = PacketProtocol.TCP)
    (hd : info.direction = PacketDirection.Send)
    (hsend : self.send_seq = 501) (hrec : self.rec_seq = 1001) :
    (writeSeq self info payloads).send_seq
        = (501 + (payloads.map List.length).sum) % 4294967296 ∧
    (writeSeq self info payloads).rec_seq = 1001 := by
  obtain ⟨ha, hb⟩ := writeSeq_send_general info hp hd payloads self (by omega)
  rw [hsend] at ha
  rw [hrec] at hb
  exact ⟨ha, hb⟩

/-- Claim C5 witness: payload lengths 2 and 3 advance `send_seq` from 501
to 506, `rec_seq` stays 1001. -/
theorem C5_witness :
    (writeSeq ⟨501, 1001, true, 1⟩ exTcpInfo [[0, 1], [2, 3, 4]]).send_seq
        = 506 ∧
    (writeSeq ⟨501, 1001, true, 1⟩ exTcpInfo [[0, 1], [2, 3, 4]]).rec_seq
        = 1001 := by
  obtain ⟨ha, hb⟩ := C5_send_seq_accumulates ⟨501, 1001, true, 1⟩ exTcpInfo
      [[0, 1], [2, 3, 4]] rfl rfl rfl rfl
  exact ⟨by rw [ha]; rfl, hb⟩

/-- Claim C6: a UDP `write` emits exactly one record — a UDP datagram
whose payload equals the input payload, with no comment (so never a
handshake or synthesized-ack record) — and leaves every session state
field unchanged. -/
theorem C6_udp_write (self : PcapWriter) (info : PacketInfo)
    (payload : List Nat) (hp : info.protocol = PacketProtocol.UDP) :
    (∃ u : UdpSeg,
      (self.write info payload).2 =
        [ { direction := info.direction, ip_protocol := ipProtoUdp,
            seg := Segment.udp u, comment := none } ] ∧
      u.payload = payload) ∧
    (self.write info payload).1 = self := by
  obtain ⟨dir, proto, ra, la⟩ := info
  subst hp
  cases dir <;> exact ⟨⟨_, rfl, rfl⟩, rfl⟩

/-- Claim C6 witness: a concrete 3-byte UDP send emits one record and does
not touch the state. -/
theorem C6_witness :
    (PcapWriter.write PcapWriter.new exUdpInfo [9, 9, 9]).2.length = 1 ∧
    (PcapWriter.write PcapWriter.new exUdpInfo [9, 9, 9]).1
      = PcapWriter.new := by
  obtain ⟨⟨u, heq, hpay⟩, hst⟩ :=
    C6_udp_write PcapWriter.new exUdpInfo [9, 9, 9] rfl
  exact ⟨by rw [heq]; rfl, hst⟩

/-- Claim C7: every emitted IPv4 header has version 4, total length
`24 + payload length`, header-length field 6, TTL 64, the don't-fragment
flag (pnet value 2), one option with copied 1, class 0, length 4 carrying
the low 16 bits of `stream_count`, and a checksum that makes the header
validate to zero under the standard internet checksum. -/
theorem C7_ipv4_header (self : PcapWriter) (info : PacketInfo)
    (protocol payloadLen a b : Nat)
    (hl : info.local_address.ip = IpAddr.v4 a)
    (hr : info.remote_address.ip = IpAddr.v4 b)
    (hlen : payloadLen + 24 < 65536) :
    ∃ h : Ip4Header,
      self.encode_ip_packet info protocol payloadLen = some (IpPacket.v4 h) ∧
      h.version = 4 ∧
      h.total_length = 24 + payloadLen ∧
      h.header_length = 6 ∧
      h.ttl = 64 ∧
      h.flags = 2 ∧
      h.next_level_protocol = protocol ∧
      h.opt_copied = 1 ∧ h.opt_class = 0 ∧ h.opt_length = 4 ∧
      h.opt_data = self.stream_count % 65536 ∧
      validateChecksum h.words = 0 := by
  obtain ⟨dir, proto, ra, la⟩ := info
  obtain ⟨rip, rport⟩ := ra
  obtain ⟨lip, lport⟩ := la
  dsimp only at hl hr
  subst hl
  subst hr
  refine ⟨_, rfl, rfl, ?_, rfl, rfl, rfl, rfl, rfl, rfl, rfl, rfl, ?_⟩
  · show (payloadLen + (20 + 32 / 8)) % 65536 = 24 + payloadLen
    omega
  · exact validate_withChecksum _

/-- Claim C7 witness: the IPv4 header properties at a fresh writer, TCP
protocol number and a 22-byte payload over the example endpoints. -/
theorem C7_witness :
    ∃ h : Ip4Header,
      PcapWriter.encode_ip_packet PcapWriter.new exTcpInfo ipProtoTcp 22
          = some (IpPacket.v4 h) ∧
      h.total_length = 46 ∧
      validateChecksum h.words = 0 := by
  obtain ⟨h, heq, -, htl, -, -, -, -, -, -, -, -, hval⟩ :=
    C7_ipv4_header PcapWriter.new exTcpInfo ipProtoTcp 22 167772165 167772161
      rfl rfl (by norm_num)
  exact ⟨h, heq, by rw [htl], hval⟩

/-- Claim C8: `new_connect` always advances `stream_count` by exactly 1
with wrapping arithmetic, whatever the protocol; for UDP sessions it
emits no records at all. -/
theorem C8_new_connect_stream (self : PcapWriter) (info : PacketInfo) :
    (self.new_connect info).1.stream_count = wrap32 (self.stream_count + 1) ∧
    (info.protocol = PacketProtocol.UDP → (self.new_connect info).2 = []) := by
  obtain ⟨dir, proto, ra, la⟩ := info
  cases proto
  · exact ⟨rfl, fun h => nomatch h⟩
  · exact ⟨rfl, fun _ => rfl⟩

/-- Claim C8 witness: a UDP `new_connect` on a fresh writer bumps
`stream_count` and emits nothing. -/
theorem C8_witness :
    (PcapWriter.new_connect PcapWriter.new exUdpInfo).1.stream_count
        = wrap32 (PcapWriter.new.stream_count + 1) ∧
    (PcapWriter.new_connect PcapWriter.new exUdpInfo).2 = [] :=
  ⟨(C8_new_connect_stream PcapWriter.new exUdpInfo).1,
   (C8_new_connect_stream PcapWriter.new exUdpInfo).2 rfl⟩

/-- Claim C9: `encode_ip_packet` produces an encoding exactly when the
two endpoint addresses share an IP family; on mixed families it reaches
the `unreachable!()` branch (modelled as `none`) and produces nothing. -/
theorem C9_encode_family (self : PcapWriter) (info : PacketInfo)
    (protocol payloadLen : Nat) :
    (self.encode_ip_packet info protocol payloadLen).isSome
      = sameFamily info.local_address.ip info.remote_address.ip := by
  obtain ⟨dir, proto, ra, la⟩ := info
  obtain ⟨rip, rport⟩ := ra
  obtain ⟨lip, lport⟩ := la
  cases lip <;> cases rip <;> rfl

/-- Claim C10: on a fresh `PcapWriter`, a TCP `write` with no prior
`new_connect` emits no handshake records — only the data record with
sequence 0 and acknowledgement 0 followed by its synthesized ack — leaves
`has_sent_handshake` false, and `write`'s record trace is independent of
the `has_sent_handshake` value (the flag is never read). -/
theorem C10_fresh_write (info : PacketInfo) (payload : List Nat)
    (hp : info.protocol = PacketProtocol.TCP) :
    (∃ dseg aseg : TcpSeg,
      (PcapWriter.new.write info payload).2 =
        [ { direction := info.direction, ip_protocol := ipProtoTcp,
            seg := Segment.tcp dseg, comment := none },
          { direction := info.direction.opposite, ip_protocol := ipProtoTcp,
            seg := Segment.tcp aseg,
            comment := some "Generated TCP ack" } ] ∧
      dseg.sequence = 0 ∧ dseg.acknowledgement = 0) ∧
    (∀ r ∈ (PcapWriter.new.write info payload).2,
      r.comment ≠ some "Generated TCP handshake") ∧
    (PcapWriter.new.write info payload).1.has_sent_handshake = false ∧
    (∀ (self : PcapWriter) (b : Bool),
      (({ self with has_sent_handshake := b } : PcapWriter).write
          info payload).2
        = (self.write info payload).2) := by
  obtain ⟨dir, proto, ra, la⟩ := info
  subst hp
  cases dir
  all_goals
    refine ⟨⟨_, _, rfl, rfl, rfl⟩, ?_, rfl, fun self b => rfl⟩
  all_goals
    intro r hr
    simp only [PcapWriter.write, PcapWriter.write_transport_packet,
      List.mem_cons, List.not_mem_nil, or_false] at hr
    rcases hr with h | h <;> subst h <;> simp

/-- Claim C10 witness: the fresh-writer TCP write at a concrete event and
2-byte payload emits 2 records and leaves the flag false. -/
theorem C10_witness :
    (PcapWriter.write PcapWriter.new exTcpInfo [3, 4]).2.length = 2 ∧
    (PcapWriter.write PcapWriter.new exTcpInfo [3, 4]).1.has_sent_handshake
      = false := by
  obtain ⟨⟨dseg, aseg, heq, h0, h1⟩, hno, hflag, hinv⟩ :=
    C10_fresh_write exTcpInfo [3, 4] rfl
  exact ⟨by rw [heq]; rfl, hflag⟩
